import Mathlib

/-!
Verification of `src/scripts/render-template.py` (the `swlc` repository).

The script is a CLI driver around the external Jinja2 templating engine:
it checks the argument count, decodes the second argument as JSON, builds a
Jinja2 `Environment` rooted at the template file's directory, loads the
template named by the file's base name, renders it with the decoded JSON
unpacked as keyword bindings, and prints the result.

The driver is embedded as a pure function `mainFn` (the script's `main`,
whose name Lean reserves) parameterized over the
external collaborators (`json.loads`, `Environment.get_template`,
`Template.render`), which the repository does not implement and the design
document treats as black boxes.  Python's `os.path.dirname` / `os.path.basename`
(POSIX) and the keyword-unpacking step `render(**variables)` are embedded
concretely, since the driver's observable behaviour depends on them.
-/

/-- JSON values, the possible results of decoding the second argument with
`json.loads`.  The driver never inspects the payload of a decoded value (it
only forwards it, or fails to unpack a non-object as keyword bindings), so
numbers are carried as `Int`; their exact arithmetic is irrelevant here. -/
inductive Json : Type where
  | null : Json
  | bool : Bool → Json
  | num : Int → Json
  | str : String → Json
  | arr : List Json → Json
  | obj : List (String × Json) → Json

/-- The loader handed to the Jinja2 `Environment`; the script always uses
`FileSystemLoader(template_dir)`. -/
inductive Loader : Type where
  | FileSystemLoader (searchpath : String) : Loader
deriving DecidableEq

/-- The autoescape argument of the `Environment`; the script always passes
`select_autoescape()` with no arguments, i.e. the engine's default
file-extension heuristic.  The heuristic itself belongs to the external
engine and is kept symbolic. -/
inductive AutoescapePolicy : Type where
  | selectAutoescapeDefault : AutoescapePolicy
deriving DecidableEq

/-- The configuration of the Jinja2 `Environment` constructed at lines 31-36
of the script. -/
structure EnvConfig : Type where
  loader : Loader
  autoescape : AutoescapePolicy
  trim_blocks : Bool
  lstrip_blocks : Bool
deriving DecidableEq

/-- One past the index of the last `'/'` in the list, `0` when there is none:
Python's `p.rfind('/') + 1` as used by `posixpath.dirname` and
`posixpath.basename`. -/
def rfindSlashSucc : List Char → Nat
  | [] => 0
  | c :: rest =>
    if 0 < rfindSlashSucc rest then rfindSlashSucc rest + 1
    else if c = '/' then 1 else 0

/-- `os.path.basename` (POSIX): everything after the last `'/'`
(`p[p.rfind('/') + 1:]`). -/
def basename (p : String) : String :=
  String.mk (p.data.drop (rfindSlashSucc p.data))

/-- `os.path.dirname` (POSIX): everything up to and including the last `'/'`,
with trailing slashes stripped unless the head consists of slashes only
(`head = p[:i]; if head and head != sep*len(head): head = head.rstrip(sep)`). -/
def dirname (p : String) : String :=
  let head := p.data.take (rfindSlashSucc p.data)
  if head.all (fun x => x = '/') then String.mk head
  else String.mk ((head.reverse.dropWhile (fun x => x = '/')).reverse)

/-- The `Environment(...)` construction at lines 31-36 of the script, applied
to the first CLI argument: loader rooted at `os.path.dirname(template_file)`,
`autoescape=select_autoescape()`, `trim_blocks=True`, `lstrip_blocks=True`. -/
def mkEnvConfig (template_file : String) : EnvConfig :=
  { loader := Loader.FileSystemLoader (dirname template_file)
  , autoescape := AutoescapePolicy.selectAutoescapeDefault
  , trim_blocks := true
  , lstrip_blocks := true }

/-- The Python type name of a decoded JSON value, as it appears in the
`TypeError` message raised by keyword unpacking. -/
def pyTypeName : Json → String
  | Json.null => "NoneType"
  | Json.bool _ => "bool"
  | Json.num _ => "int"
  | Json.str _ => "str"
  | Json.arr _ => "list"
  | Json.obj _ => "dict"

/-- Whether a decoded JSON value is an object (a Python `dict`). -/
def isMapping : Json → Bool
  | Json.obj _ => true
  | _ => false

/-- The `TypeError` message CPython raises for keyword-unpacking a non-mapping
value in a call `f(**v)`. -/
def kwargsMsg (v : Json) : String :=
  "render() argument after ** must be a mapping, not " ++ pyTypeName v

/-- Python call semantics of `template.render(**variables)` at line 41: a
`dict` (a decoded JSON object) supplies its entries as keyword bindings,
while any other value makes the call raise a `TypeError` before the engine
runs; the `TypeError` is an `Exception`, so it lands in the script's
`except Exception` handler. -/
def asKwargs : Json → Except String (List (String × Json))
  | Json.obj kvs => Except.ok kvs
  | v => Except.error (kwargsMsg v)

/-- The interface of the external collaborators, as the driver consumes them:
`json.loads` on the raw second argument, `Environment.get_template` under a
given configuration, and `Template.render` on a loaded template with keyword
bindings.  `Template` is the engine's opaque compiled-template type.  Each
operation either succeeds or fails with the message `str(e)` of the raised
exception. -/
structure Engine (Template : Type) : Type where
  jsonLoads : String → Except String Json
  getTemplate : EnvConfig → String → Except String Template
  render : Template → List (String × Json) → Except String String

/-- The observable outcome of one process invocation: the bytes written to
standard output and standard error, and the exit status. -/
structure ProcResult : Type where
  stdout : String
  stderr : String
  exitCode : Nat
deriving DecidableEq

/-- The usage string printed at line 13 of the script. -/
def usageMsg : String :=
  "Usage: render-template.py <template_file> <variables_json>"

/-- The body of the `try` block at lines 39-42: load the template named by the
file's base name from the environment, unpack the decoded variables as keyword
bindings, and render.  Any of the three steps may raise; the first failure
wins, exactly as in the Python `try` block. -/
def renderPipeline {Template : Type} (E : Engine Template)
    (env : EnvConfig) (template_name : String) (vars : Json) :
    Except String String :=
  match E.getTemplate env template_name with
  | Except.error e => Except.error e
  | Except.ok template =>
    match asKwargs vars with
    | Except.error e => Except.error e
    | Except.ok kwargs =>
      match E.render template kwargs with
      | Except.error e => Except.error e
      | Except.ok output => Except.ok output

/-- The whole of `main()` (lines 11-45): argument-count check, JSON decoding
of the second argument, environment construction, template load and render,
and the final `print`.  `print` appends a newline to whatever it writes, on
standard output and on standard error alike; `sys.exit(1)` yields exit
status 1, falling off the end of `main` yields 0.  Arguments beyond the
second are ignored, as in the script. -/
def mainFn {Template : Type} (E : Engine Template) (argv : List String) : ProcResult :=
  match argv with
  | _prog :: template_file :: variables_json :: _rest =>
    match E.jsonLoads variables_json with
    | Except.error e =>
      { stdout := "", stderr := "Error parsing variables JSON: " ++ e ++ "\n", exitCode := 1 }
    | Except.ok vars =>
      match renderPipeline E (mkEnvConfig template_file) (basename template_file) vars with
      | Except.error e =>
        { stdout := "", stderr := "Error rendering template: " ++ e ++ "\n", exitCode := 1 }
      | Except.ok output =>
        { stdout := output ++ "\n", stderr := "", exitCode := 0 }
  | _ =>
    { stdout := "", stderr := usageMsg ++ "\n", exitCode := 1 }

/-- A template's text contains Jinja2 markup: an occurrence of one of the
openers of the engine's grammar, a substitution `\x7b\x7b`, a statement
`\x7b%`, or a comment `\x7b#`. -/
def hasMarkup : List Char → Bool
  | [] => false
  | [_] => false
  | a :: b :: rest =>
    (a = '{' && (b = '{' || b = '%' || b = '#')) || hasMarkup (b :: rest)

/-- A concrete instance of the collaborator interface used for evaluation:
one template file `t.txt` with the literal body `hello`, a JSON decoder
recognizing the two concrete inputs the evaluations use, and a renderer that
returns a template's text unchanged (the engine's behaviour on markup-free
templates, per the design document's black-box description).  A missing
template fails with the template name as message, as
`str(jinja2.exceptions.TemplateNotFound(name))` does. -/
def litEngine : Engine String :=
  { jsonLoads := fun s =>
      if s = "{}" then Except.ok (Json.obj [])
      else if s = "[]" then Except.ok (Json.arr [])
      else Except.error "Expecting value: line 1 column 1 (char 0)"
  , getTemplate := fun _cfg n =>
      if n = "t.txt" then Except.ok "hello" else Except.error n
  , render := fun src _kwargs => Except.ok src }

/-- A list without a slash has no last slash: Python's `rfind` returns `-1`. -/
theorem rfindSlashSucc_eq_zero (cs : List Char) (h : '/' ∉ cs) :
    rfindSlashSucc cs = 0 := by
  induction cs with
  | nil => rfl
  | cons a l ih =>
    simp only [List.mem_cons, not_or] at h
    simp [rfindSlashSucc, ih h.2, Ne.symm h.1]

/-- When the suffix after a slash is slash-free, the last slash is the one
separating the two parts. -/
theorem rfindSlashSucc_append_slash (xs ys : List Char) (h : '/' ∉ ys) :
    rfindSlashSucc (xs ++ '/' :: ys) = xs.length + 1 := by
  induction xs with
  | nil => simp [rfindSlashSucc, rfindSlashSucc_eq_zero ys h]
  | cons a l ih => simp [rfindSlashSucc, ih]

/-- `os.path.basename` of a path `d ++ "/" ++ f` with slash-free `f` is `f`. -/
theorem basename_of_split (dcs : List Char) (c : Char) (f : String)
    (hf : '/' ∉ f.data) :
    basename (String.mk (dcs ++ [c]) ++ "/" ++ f) = f := by
  unfold basename
  have hdata : (String.mk (dcs ++ [c]) ++ "/" ++ f).data
      = ((dcs ++ [c]) ++ ['/']) ++ f.data := by
    simp [String.data_append]
  rw [hdata]
  have h1 : rfindSlashSucc (((dcs ++ [c]) ++ ['/']) ++ f.data)
      = ((dcs ++ [c]) ++ ['/']).length := by
    have h2 := rfindSlashSucc_append_slash (dcs ++ [c]) f.data hf
    simpa using h2
  rw [h1, List.drop_left]

/-- `os.path.dirname` of a path `d ++ "/" ++ f`, where `d` does not end in a
slash and `f` is slash-free, is `d`. -/
theorem dirname_of_split (dcs : List Char) (c : Char) (f : String)
    (hc : c ≠ '/') (hf : '/' ∉ f.data) :
    dirname (String.mk (dcs ++ [c]) ++ "/" ++ f) = String.mk (dcs ++ [c]) := by
  unfold dirname
  have hdata : (String.mk (dcs ++ [c]) ++ "/" ++ f).data
      = ((dcs ++ [c]) ++ ['/']) ++ f.data := by
    simp [String.data_append]
  rw [hdata]
  have h1 : rfindSlashSucc (((dcs ++ [c]) ++ ['/']) ++ f.data)
      = ((dcs ++ [c]) ++ ['/']).length := by
    have h2 := rfindSlashSucc_append_slash (dcs ++ [c]) f.data hf
    simpa using h2
  rw [h1, List.take_left]
  have hall : ((dcs ++ [c]) ++ ['/']).all (fun x => x = '/') = false := by
    simp [hc]
  simp [hall, List.dropWhile_cons, hc]

/-- C1 (as stated) is false: with an engine that renders the literal-only
template `hello` to its text unchanged and the variables argument the empty
object, the script's standard output is `hello` followed by the newline that
`print` appends, not the bare literal text. -/
theorem literal_template_stdout_not_bare_cex :
    hasMarkup "hello".data = false ∧
    litEngine.jsonLoads "{}" = Except.ok (Json.obj []) ∧
    litEngine.getTemplate (mkEnvConfig "t.txt") (basename "t.txt") = Except.ok "hello" ∧
    litEngine.render "hello" [] = Except.ok "hello" ∧
    (mainFn litEngine ["render-template.py", "t.txt", "{}"]).stdout = "hello" ++ "\n" ∧
    (mainFn litEngine ["render-template.py", "t.txt", "{}"]).stdout ≠ "hello" := by
  refine ⟨rfl, rfl, rfl, rfl, rfl, ?_⟩
  decide

/-- C1 amended: for a template whose contents are literal text only, which the
engine therefore renders to that text unchanged, and the variables argument
the empty object, the script's standard output is the literal text followed by
a single newline (and the exit status is 0). -/
theorem literal_template_stdout_newline {Template : Type} (E : Engine Template)
    (prog tf : String) (rest : List String) (t : Template) (text : String)
    ( hlit : hasMarkup text.data = false)
    (hjson : E.jsonLoads "{}" = Except.ok (Json.obj []))
    (hget : E.getTemplate (mkEnvConfig tf) (basename tf) = Except.ok t)
    (hrender : E.render t [] = Except.ok text) :
    mainFn E (prog :: tf :: "{}" :: rest)
      = { stdout := text ++ "\n", stderr := "", exitCode := 0 } := by
  simp [mainFn, hjson, renderPipeline, hget, asKwargs, hrender]

/-- Witness: the amended C1 at the concrete literal engine and file. -/
theorem literal_template_stdout_newline_witness :
    mainFn litEngine ["render-template.py", "t.txt", "{}"]
      = { stdout := "hello" ++ "\n", stderr := "", exitCode := 0 } :=
  literal_template_stdout_newline litEngine "render-template.py" "t.txt" []
    "hello" "hello" rfl rfl rfl rfl

/-- C2: when argument parsing, JSON decoding, template loading and rendering
all succeed, the script writes the rendered string followed by a single
newline to standard output, writes nothing to standard error, and exits with
status 0. -/
theorem success_output_and_exit_zero {Template : Type} (E : Engine Template)
    (prog tf vj : String) (rest : List String) (vars : Json) (output : String)
    (hjson : E.jsonLoads vj = Except.ok vars)
    (hpipe : renderPipeline E (mkEnvConfig tf) (basename tf) vars = Except.ok output) :
    mainFn E (prog :: tf :: vj :: rest)
      = { stdout := output ++ "\n", stderr := "", exitCode := 0 } := by
  simp [mainFn, hjson, hpipe]

/-- Witness: the success path at the concrete literal engine. -/
theorem success_output_and_exit_zero_witness :
    mainFn litEngine ["render-template.py", "t.txt", "{}"]
      = { stdout := "hello\n", stderr := "", exitCode := 0 } :=
  success_output_and_exit_zero litEngine "render-template.py" "t.txt" "{}" []
    (Json.obj []) "hello" rfl rfl

/-- C3: with fewer than two arguments beyond the program name, the script
prints the usage message to standard error, exits with the non-zero status 1,
and writes nothing to standard output. -/
theorem usage_error_on_missing_args {Template : Type} (E : Engine Template)
    (argv : List String) (hlen : argv.length < 3) :
    mainFn E argv = { stdout := "", stderr := usageMsg ++ "\n", exitCode := 1 } := by
  match argv with
  | [] => rfl
  | [_] => rfl
  | [_, _] => rfl
  | _ :: _ :: _ :: _ => simp at hlen; omega

/-- Witness: a one-argument invocation takes the usage-error path. -/
theorem usage_error_on_missing_args_witness :
    mainFn litEngine ["render-template.py"]
      = { stdout := "", stderr := usageMsg ++ "\n", exitCode := 1 } :=
  usage_error_on_missing_args litEngine ["render-template.py"] (by decide)

/-- C4: when the second argument is not valid JSON, the script writes a
diagnostic containing the parse error's detail to standard error, exits with
the non-zero status 1, and writes nothing to standard output. -/
theorem json_parse_error_reported {Template : Type} (E : Engine Template)
    (prog tf vj : String) (rest : List String) (e : String)
    (hjson : E.jsonLoads vj = Except.error e) :
    mainFn E (prog :: tf :: vj :: rest)
      = { stdout := "", stderr := "Error parsing variables JSON: " ++ e ++ "\n"
        , exitCode := 1 } := by
  simp [mainFn, hjson]

/-- Witness: `not-json` takes the JSON-parse-error path. -/
theorem json_parse_error_reported_witness :
    mainFn litEngine ["render-template.py", "t.txt", "not-json"]
      = { stdout := ""
        , stderr := "Error parsing variables JSON: "
            ++ "Expecting value: line 1 column 1 (char 0)" ++ "\n"
        , exitCode := 1 } :=
  json_parse_error_reported litEngine "render-template.py" "t.txt" "not-json" []
    "Expecting value: line 1 column 1 (char 0)" rfl

/-- C5: any failure during template loading or rendering (a missing template,
the keyword-unpacking failure, or a render-time error) is caught; its message
is written to standard error behind the render-error banner, the exit status
is the non-zero 1, and nothing is written to standard output. -/
theorem render_error_reported {Template : Type} (E : Engine Template)
    (prog tf vj : String) (rest : List String) (vars : Json) (e : String)
    (hjson : E.jsonLoads vj = Except.ok vars)
    (hfail : renderPipeline E (mkEnvConfig tf) (basename tf) vars = Except.error e) :
    mainFn E (prog :: tf :: vj :: rest)
      = { stdout := "", stderr := "Error rendering template: " ++ e ++ "\n"
        , exitCode := 1 } := by
  simp [mainFn, hjson, hfail]

/-- Witness: a missing template file takes the render-error path; the message
is the template name, as `str(TemplateNotFound(name))` yields. -/
theorem render_error_reported_witness :
    mainFn litEngine ["render-template.py", "missing.txt", "{}"]
      = { stdout := ""
        , stderr := "Error rendering template: " ++ "missing.txt" ++ "\n"
        , exitCode := 1 } :=
  render_error_reported litEngine "render-template.py" "missing.txt" "{}" []
    (Json.obj []) "missing.txt" rfl rfl

/-- C6: on every failing invocation, nothing has been written to standard
output — the script prints only after the whole render has succeeded. -/
theorem no_partial_stdout_on_failure {Template : Type} (E : Engine Template)
    (argv : List String) (hfail : (mainFn E argv).exitCode ≠ 0) :
    (mainFn E argv).stdout = "" := by
  rcases argv with _ | ⟨p, argv⟩
  · rfl
  rcases argv with _ | ⟨tf, argv⟩
  · rfl
  rcases argv with _ | ⟨vj, rest⟩
  · rfl
  cases hj : E.jsonLoads vj with
  | error e => simp [mainFn, hj]
  | ok vars =>
    cases hp : renderPipeline E (mkEnvConfig tf) (basename tf) vars with
    | error e => simp [mainFn, hj, hp]
    | ok out =>
      exfalso
      apply hfail
      simp [mainFn, hj, hp]

/-- Witness: the usage-error invocation fails and leaves stdout empty. -/
theorem no_partial_stdout_on_failure_witness :
    (mainFn litEngine ["render-template.py"]).stdout = "" :=
  no_partial_stdout_on_failure litEngine ["render-template.py"] (by decide)

/-- C7: every invocation exits with status 0 or with status 1 — all three
error paths share the single exit code 1, so error kinds are distinguishable
only by the message text. -/
theorem exit_code_zero_or_one {Template : Type} (E : Engine Template)
    (argv : List String) :
    (mainFn E argv).exitCode = 0 ∨ (mainFn E argv).exitCode = 1 := by
  rcases argv with _ | ⟨p, argv⟩
  · exact Or.inr rfl
  rcases argv with _ | ⟨tf, argv⟩
  · exact Or.inr rfl
  rcases argv with _ | ⟨vj, rest⟩
  · exact Or.inr rfl
  cases hj : E.jsonLoads vj with
  | error e => right; simp [mainFn, hj]
  | ok vars =>
    cases hp : renderPipeline E (mkEnvConfig tf) (basename tf) vars with
    | error e => right; simp [mainFn, hj, hp]
    | ok out => left; simp [mainFn, hj, hp]

/-- C8: for a path `d ++ "/" ++ f` whose directory part does not end in a
slash and whose file part is slash-free, the environment is constructed with
a `FileSystemLoader` rooted at the containing directory `d`, the default
`select_autoescape()` policy, and both `trim_blocks` and `lstrip_blocks` set;
the template subsequently requested is named by the base file name `f`. -/
theorem env_setup_from_path (dcs : List Char) (c : Char) (f : String)
    (hc : c ≠ '/') (hf : '/' ∉ f.data) :
    mkEnvConfig (String.mk (dcs ++ [c]) ++ "/" ++ f)
      = { loader := Loader.FileSystemLoader (String.mk (dcs ++ [c]))
        , autoescape := AutoescapePolicy.selectAutoescapeDefault
        , trim_blocks := true
        , lstrip_blocks := true }
    ∧ basename (String.mk (dcs ++ [c]) ++ "/" ++ f) = f := by
  constructor
  · unfold mkEnvConfig
    rw [dirname_of_split dcs c f hc hf]
  · exact basename_of_split dcs c f hf

/-- Witness: the environment for the path `dir/t.txt` is rooted at `dir` and
requests the template `t.txt`. -/
theorem env_setup_from_path_witness :
    mkEnvConfig (String.mk (['d', 'i'] ++ ['r']) ++ "/" ++ "t.txt")
      = { loader := Loader.FileSystemLoader (String.mk (['d', 'i'] ++ ['r']))
        , autoescape := AutoescapePolicy.selectAutoescapeDefault
        , trim_blocks := true
        , lstrip_blocks := true }
    ∧ basename (String.mk (['d', 'i'] ++ ['r']) ++ "/" ++ "t.txt") = "t.txt" :=
  env_setup_from_path ['d', 'i'] 'r' "t.txt" (by decide) (by decide)

/-- The driver is extensional in its collaborators: the whole `try` block's
outcome depends only on the collaborators' input-output behaviour. -/
theorem renderPipeline_congr {Template : Type} (E₁ E₂ : Engine Template)
    (env : EnvConfig) (n : String) (vars : Json)
    (hg : ∀ cfg m, E₁.getTemplate cfg m = E₂.getTemplate cfg m)
    (hr : ∀ t kw, E₁.render t kw = E₂.render t kw) :
    renderPipeline E₁ env n vars = renderPipeline E₂ env n vars := by
  unfold renderPipeline
  rw [hg env n]
  cases E₂.getTemplate env n with
  | error e => rfl
  | ok t =>
    cases asKwargs vars with
    | error e => rfl
    | ok kw => simp only [hr t kw]

/-- C9: rendering is deterministic — the script has no hidden state, so two
runs on the same argument vector, with collaborators showing the same
input-output behaviour both times (as the engine does on templates without
control-flow constructs), produce the identical process outcome, standard
output included. -/
theorem render_deterministic {Template : Type} (E₁ E₂ : Engine Template)
    (argv : List String)
    (hj : ∀ s, E₁.jsonLoads s = E₂.jsonLoads s)
    (hg : ∀ cfg m, E₁.getTemplate cfg m = E₂.getTemplate cfg m)
    (hr : ∀ t kw, E₁.render t kw = E₂.render t kw) :
    mainFn E₁ argv = mainFn E₂ argv := by
  rcases argv with _ | ⟨p, argv⟩
  · rfl
  rcases argv with _ | ⟨tf, argv⟩
  · rfl
  rcases argv with _ | ⟨vj, rest⟩
  · rfl
  show mainFn E₁ (p :: tf :: vj :: rest) = mainFn E₂ (p :: tf :: vj :: rest)
  simp only [mainFn]
  rw [hj vj]
  cases E₂.jsonLoads vj with
  | error e => rfl
  | ok vars =>
    simp only [renderPipeline_congr E₁ E₂ (mkEnvConfig tf) (basename tf) vars hg hr]

/-- Witness: two runs of the literal engine on the same invocation agree. -/
theorem render_deterministic_witness :
    mainFn litEngine ["render-template.py", "t.txt", "{}"]
      = mainFn litEngine ["render-template.py", "t.txt", "{}"] :=
  render_deterministic litEngine litEngine ["render-template.py", "t.txt", "{}"]
    (fun _ => rfl) (fun _ _ => rfl) (fun _ _ => rfl)

/-- C10: when the second argument is valid JSON but not an object, the script
does not take the JSON-parse-error path; once the template loads, the
`TypeError` raised by unpacking the value as keyword bindings is caught by
the render-error handler, reported on standard error behind the render-error
banner, and the process exits with status 1 and empty standard output. -/
theorem non_mapping_json_render_error {Template : Type} (E : Engine Template)
    (prog tf vj : String) (rest : List String) (v : Json) (t : Template)
    (hjson : E.jsonLoads vj = Except.ok v)
    (hnot : isMapping v = false)
    (hget : E.getTemplate (mkEnvConfig tf) (basename tf) = Except.ok t) :
    mainFn E (prog :: tf :: vj :: rest)
      = { stdout := ""
        , stderr := "Error rendering template: " ++ kwargsMsg v ++ "\n"
        , exitCode := 1 } := by
  have hkw : asKwargs v = Except.error (kwargsMsg v) := by
    cases v <;> simp_all [asKwargs, isMapping]
  simp [mainFn, hjson, renderPipeline, hget, hkw]

/-- Witness: a JSON array second argument is decoded, the template loads, and
the invocation ends on the render-error path with the unpacking message. -/
theorem non_mapping_json_render_error_witness :
    mainFn litEngine ["render-template.py", "t.txt", "[]"]
      = { stdout := ""
        , stderr := "Error rendering template: " ++ kwargsMsg (Json.arr []) ++ "\n"
        , exitCode := 1 } :=
  non_mapping_json_render_error litEngine "render-template.py" "t.txt" "[]" []
    (Json.arr []) "hello" rfl rfl rfl
